import Mathlib

/-!
Verification development for geteltorito.py, an El Torito boot-image
extractor. The Python source is shallowly embedded below: the image file
is a byte sequence (a length plus a byte-at-offset function), the sector
reader mirrors file.seek plus file.read semantics on a regular file, and
each decoding stage of main() (lines 69-164) becomes a Lean function
returning a tagged result. Machine bytes are plain Nat values; all
multi-byte integers are reconstructed little-endian.
-/

set_option autoImplicit false

/-- SEC_SIZE = 2048 (geteltorito.py line 18). -/
def SEC_SIZE : Nat := 2048

/-- V_SEC_SIZE = 512 (geteltorito.py line 17). -/
def V_SEC_SIZE : Nat := 512

/-- A byte-addressable source (the opened image file): a total size in
bytes and the byte stored at each offset below that size. -/
structure Source where
  size : Nat
  byteAt : Nat → Nat

/-- Python regular-file read semantics: seek to pos (seeking past end is
allowed) and read n bytes, returning only the bytes that exist, so the
result is short (possibly empty) when the file ends early. -/
def Source.read (f : Source) (pos n : Nat) : List Nat :=
  (List.range' pos (min n (f.size - pos))).map f.byteAt

/-- get_sector (lines 21-31): seek to sec_num*SEC_SIZE and read
V_SEC_SIZE*sec_count bytes. The none branch corresponds to the IOError
handler; an in-memory byte source raises no IOError, so the model always
returns some buffer, short reads included, exactly as file.read does. -/
def get_sector (f : Source) (sec_num sec_count : Nat) : Option (List Nat) :=
  some (f.read (sec_num * SEC_SIZE) (V_SEC_SIZE * sec_count))

/-- Error outcomes of the decode. readError covers get_sector returning
None and the empty-buffer aborts at lines 72 and 91; notBootable is the
line 82 and line 126 aborts; invalidValidationEntry is line 102;
unpackError is a struct.error and unicodeError a UnicodeDecodeError, both
reaching the generic `except Exception` handler at line 186. -/
inductive DecodeError
  | readError
  | notBootable
  | invalidValidationEntry
  | unpackError
  | unicodeError
deriving DecidableEq, Repr

/-- Result of a decoding stage: a value or a DecodeError. -/
inductive DResult (α : Type)
  | ok : α → DResult α
  | err : DecodeError → DResult α
deriving DecidableEq, Repr

/-- Bytes of an ASCII string literal. -/
def strBytes (s : String) : List Nat :=
  s.data.map Char.toNat

/-- The 5 identifier bytes "CD001" checked at line 82. -/
def cd001 : List Nat := strBytes "CD001"

/-- The boot-system tag "EL TORITO SPECIFICATION" checked at line 82. -/
def elToritoTag : List Nat := strBytes "EL TORITO SPECIFICATION"

/-- A 32-bit little-endian integer from four bytes (struct code I).
Callers always pass exactly four bytes. -/
def le32 (bs : List Nat) : Nat :=
  match bs with
  | [b0, b1, b2, b3] => b0 + 256 * (b1 + 256 * (b2 + 256 * b3))
  | _ => 0

/-- Python bytes.strip of NUL bytes: removes leading and trailing zero
bytes (line 80 applies strip before the ascii decode). -/
def stripNul (bs : List Nat) : List Nat :=
  ((bs.dropWhile (fun b => b = 0)).reverse.dropWhile (fun b => b = 0)).reverse

/-- Trailing-NUL-only padding used to build fixture tags. -/
def padNul (bs : List Nat) (n : Nat) : List Nat :=
  bs ++ List.replicate n 0

/-- Modelled from the spec's words (section 3 and section 8): the
comparison tag obtained by stripping exactly the trailing NUL padding,
leaving leading bytes untouched. Kept separate from stripNul, the
embedding of the source's bytes.strip, to compare the two behaviours. -/
def specStripTrailingNul (bs : List Nat) : List Nat :=
  (bs.reverse.dropWhile (fun b => b = 0)).reverse

/-- Volume-descriptor stage body (lines 72-87), applied to the buffer
returned for sector 17. After the empty-buffer abort, sector[:75] is
unpacked as "<B5sB32s32sI": descriptor type byte at 0, identifier at 1-5,
version at 6, boot-system tag at 7-38, 32 unused bytes at 39-70, and the
boot-catalog pointer as a 32-bit little-endian integer at 71-74; the
unpack raises struct.error when fewer than 75 bytes are present. The
identifier is ascii-decoded (line 79), then the tag is stripped of NUL
bytes and ascii-decoded (line 80); a byte of 128 or more raises a
UnicodeDecodeError. Line 82 rejects unless the identifier equals "CD001"
and the stripped tag equals "EL TORITO SPECIFICATION". -/
def vdBody (sector : List Nat) : DResult Nat :=
  if sector = [] then .err .readError
  else
    let s := sector.take 75
    if s.length = 75 then
      let iso_ident := (s.drop 1).take 5
      let torito_raw := (s.drop 7).take 32
      let boot_p := le32 ((s.drop 71).take 4)
      if iso_ident.all (fun b => b < 128) then
        let torito := stripNul torito_raw
        if torito.all (fun b => b < 128) then
          if iso_ident ≠ cd001 ∨ torito ≠ elToritoTag then .err .notBootable
          else .ok boot_p
        else .err .unicodeError
      else .err .unicodeError
    else .err .unpackError

/-- Volume Descriptor Validator (lines 71-90): read sector 17 and run the
stage body, yielding the boot-catalog sector pointer boot_p. -/
def validateVolumeDescriptor (f : Source) : DResult Nat :=
  match get_sector f 17 1 with
  | none => .err .readError
  | some sector => vdBody sector

/-- Validation Entry check (lines 96-104): sector[:32] is unpacked as
"<BBH24sHBB" (struct.error when shorter than 32 bytes); the entry is
rejected unless header (byte 0) = 1, five (byte 30) = 0x55 and aa
(byte 31) = 0xAA. The platform byte and the 24 manufacturer bytes are
only printed (the manufacturer decode uses errors=ignore), so they never
cause a failure. -/
def checkValidationEntry (sector : List Nat) : DResult Unit :=
  let ve := sector.take 32
  if ve.length = 32 then
    if ve.getD 0 0 = 1 ∧ ve.getD 30 0 = 0x55 ∧ ve.getD 31 0 = 0xAA then .ok ()
    else .err .invalidValidationEntry
  else .err .unpackError

/-- Fields the Initial/Default Entry unpack at lines 122-124 would bind. -/
structure InitialEntry where
  boot : Nat
  media : Nat
  load_segment : Nat
  system_type : Nat
  s_count : Nat
  img_start : Nat
deriving DecidableEq, Repr

/-- Initial/Default Entry parse (lines 121-124): struct.unpack is called
with the format string "<BBHBBH_I_B". The character _ is not a struct
format character, so struct.unpack raises struct.error (bad char in
struct format) before reading any byte of the buffer; control transfers
to the generic handler at line 186. Hence this stage fails on every
input. -/
def parseInitialEntry (_sector : List Nat) : DResult InitialEntry :=
  .err .unpackError

/-- Media-type sizing (lines 134-152): the count variable starts at 0 and
is set by media type; floppy types use fixed geometry; the harddisk type
reads one sector at img_start and, when the buffer is truthy, unpacks
mbr[446:462] as "<8sII" (struct.error when shorter than 16 bytes) and
sums first_sector and partition_size. These lines are unreachable in the
program because parseInitialEntry always fails first. -/
def mediaCount (f : Source) (media img_start : Nat) : DResult Nat :=
  if media = 0 then .ok 0
  else if media = 1 then .ok (1200 * 1024 / V_SEC_SIZE)
  else if media = 2 then .ok (1440 * 1024 / V_SEC_SIZE)
  else if media = 3 then .ok (2880 * 1024 / V_SEC_SIZE)
  else if media = 4 then
    match get_sector f img_start 1 with
    | none => .ok 0
    | some mbr =>
      if mbr = [] then .ok 0
      else
        let partition1 := (mbr.drop 446).take 16
        if partition1.length = 16 then
          .ok (le32 ((partition1.drop 8).take 4) + le32 ((partition1.drop 12).take 4))
        else .err .unpackError
  else .ok 0

/-- Line 154: cnt = s_count if count == 0 else count. -/
def resolvedCnt (s_count count : Nat) : Nat :=
  if count = 0 then s_count else count

/-- Sequencing of stages: an error aborts the run (the source exits on
the first violated check). -/
def DResult.bind {α β : Type} : DResult α → (α → DResult β) → DResult β
  | .err e, _ => .err e
  | .ok a, k => k a

/-- Final read (lines 162-164): the boot image is read at img_start for
cnt virtual sectors. When the result is falsy (None or empty) the code
writes nothing and falls off the end of main, a silent success, modelled
as ok []. -/
def imageRead (f : Source) (img_start cnt : Nat) : DResult (List Nat) :=
  match get_sector f img_start cnt with
  | none => .ok []
  | some image => if image = [] then .ok [] else .ok image

/-- Lines 126-162 given the fields of a parsed Initial/Default Entry:
boot-indicator test, media sizing, the line 154 fallback, final read. -/
def locateFromEntry (f : Source) (entry : InitialEntry) : DResult (List Nat) :=
  if entry.boot ≠ 0x88 then .err .notBootable
  else
    (mediaCount f entry.media entry.img_start).bind fun count =>
      imageRead f entry.img_start (resolvedCnt entry.s_count count)

/-- Lines 96-162 on the boot-catalog sector buffer: Validation Entry
check, Initial/Default Entry unpack, then the located image. -/
def parseCatalogAndLocate (f : Source) (sector : List Nat) : DResult (List Nat) :=
  (checkValidationEntry sector).bind fun _ =>
    (parseInitialEntry sector).bind fun entry => locateFromEntry f entry

/-- Lines 90-92: read the boot-catalog sector, aborting on a falsy
buffer. -/
def readCatalog (f : Source) (boot_p : Nat) : DResult (List Nat) :=
  match get_sector f boot_p 1 with
  | none => .err .readError
  | some sector => if sector = [] then .err .readError else .ok sector

/-- The whole decode, main() lines 71-164 up to the point where the image
buffer is handed to the output layer, in source order: volume descriptor,
catalog read, catalog parse, image location and final read. -/
def decodeImage (f : Source) : DResult (List Nat) :=
  (validateVolumeDescriptor f).bind fun boot_p =>
    (readCatalog f boot_p).bind fun sector => parseCatalogAndLocate f sector

/-- Sector 17 as read by the volume-descriptor stage. -/
def sector17 (f : Source) : List Nat :=
  f.read (17 * SEC_SIZE) (V_SEC_SIZE * 1)

/-- The 5-byte identifier field of sector 17 (bytes 1-5). -/
def vdIdent (f : Source) : List Nat :=
  (((sector17 f).take 75).drop 1).take 5

/-- The raw 32-byte boot-system tag of sector 17 (bytes 7-38). -/
def vdTagRaw (f : Source) : List Nat :=
  (((sector17 f).take 75).drop 7).take 32

/-- The boot-catalog pointer: 32-bit little-endian at bytes 71-74 of
sector 17. -/
def vdBootP (f : Source) : Nat :=
  le32 ((((sector17 f).take 75).drop 71).take 4)

/-- The 75 meaningful bytes of a well-formed Primary Volume Descriptor
sector pointing the boot catalog at sector 20; bytes past the list are
zero via getD. -/
def pvdSector : List Nat :=
  [0] ++ cd001 ++ [1] ++ padNul elToritoTag 9 ++ List.replicate 32 0 ++ [20, 0, 0, 0]

/-- Boot-catalog bytes for the fixtures: a valid Validation Entry
(header 1, signature 0x55 0xAA at bytes 30-31) followed by an
Initial/Default Entry with the given boot-indicator and media bytes,
sector_count 10 and start_sector 25. -/
def catalogSector (boot media : Nat) : List Nat :=
  [1, 0, 0, 0] ++ List.replicate 24 0 ++ [0, 0, 0x55, 0xAA]
    ++ [boot, media, 0, 0, 0, 0, 10, 0, 25, 0, 0, 0] ++ List.replicate 20 0

/-- A fixture image: PVD at sector 17 pointing to catalog sector 20,
catalog with boot indicator and media type as given, and 5120 payload
bytes of value 171 starting at sector 25. -/
def synthImage (boot media : Nat) : Source where
  size := 25 * SEC_SIZE + 10 * V_SEC_SIZE
  byteAt := fun i =>
    if 17 * SEC_SIZE ≤ i ∧ i < 18 * SEC_SIZE then pvdSector.getD (i - 17 * SEC_SIZE) 0
    else if 20 * SEC_SIZE ≤ i ∧ i < 21 * SEC_SIZE then (catalogSector boot media).getD (i - 20 * SEC_SIZE) 0
    else if 25 * SEC_SIZE ≤ i then 171
    else 0

/-- The NoEmulation end-to-end fixture of the spec's scenario. -/
def synthetic : Source := synthImage 0x88 0

/-- The empty source: a zero-length file. -/
def emptySource : Source := { size := 0, byteAt := fun _ => 0 }

/-- A PVD whose identifier is the ASCII string "CD002". -/
def pvdSectorCD002 : List Nat :=
  [0] ++ strBytes "CD002" ++ [1] ++ padNul elToritoTag 9 ++ List.replicate 32 0 ++ [20, 0, 0, 0]

/-- A source holding only that descriptor at sector 17. -/
def srcCD002 : Source :=
  { size := 17 * SEC_SIZE + 75, byteAt := fun i => pvdSectorCD002.getD (i - 17 * SEC_SIZE) 0 }

/-- A PVD whose identifier starts with the non-ASCII byte 255. -/
def pvdSectorNonAscii : List Nat :=
  [0] ++ [255, 68, 48, 48, 49] ++ [1] ++ padNul elToritoTag 9 ++ List.replicate 32 0 ++ [20, 0, 0, 0]

/-- A source holding only that descriptor at sector 17. -/
def srcNonAsciiIdent : Source :=
  { size := 17 * SEC_SIZE + 75, byteAt := fun i => pvdSectorNonAscii.getD (i - 17 * SEC_SIZE) 0 }

/-- A PVD whose tag field is a leading NUL, the constant tag, then 8
trailing NULs. -/
def pvdSectorLeadNulTag : List Nat :=
  [0] ++ cd001 ++ [1] ++ ([0] ++ elToritoTag ++ List.replicate 8 0)
    ++ List.replicate 32 0 ++ [20, 0, 0, 0]

/-- A source holding only that descriptor at sector 17. -/
def srcLeadNulTag : Source :=
  { size := 17 * SEC_SIZE + 75, byteAt := fun i => pvdSectorLeadNulTag.getD (i - 17 * SEC_SIZE) 0 }

/-- A PVD whose tag field is "WRONG TAG" padded with NULs. -/
def pvdSectorWrongTag : List Nat :=
  [0] ++ cd001 ++ [1] ++ padNul (strBytes "WRONG TAG") 23 ++ List.replicate 32 0 ++ [20, 0, 0, 0]

/-- A source holding only that descriptor at sector 17. -/
def srcWrongTag : Source :=
  { size := 17 * SEC_SIZE + 75, byteAt := fun i => pvdSectorWrongTag.getD (i - 17 * SEC_SIZE) 0 }

/-- Fixture with boot indicator 0 in the Initial/Default Entry. -/
def srcBadBoot : Source := synthImage 0 0

/-- Fixture with media type 1 (1.2 MB floppy). -/
def srcFloppy : Source := synthImage 0x88 1

/-- An MBR sector: partition slot at offset 446 with 8 ignored bytes,
first_sector 2048 and partition_size 4096, little-endian. -/
def hdMbr : List Nat :=
  List.replicate 446 0 ++ List.replicate 8 0 ++ [0, 8, 0, 0] ++ [0, 16, 0, 0]

/-- Harddisk-emulation fixture: catalog media type 4, start sector 25
holding the MBR above. -/
def srcHd : Source where
  size := 25 * SEC_SIZE + V_SEC_SIZE
  byteAt := fun i =>
    if 17 * SEC_SIZE ≤ i ∧ i < 18 * SEC_SIZE then pvdSector.getD (i - 17 * SEC_SIZE) 0
    else if 20 * SEC_SIZE ≤ i ∧ i < 21 * SEC_SIZE then (catalogSector 0x88 4).getD (i - 20 * SEC_SIZE) 0
    else if 25 * SEC_SIZE ≤ i then hdMbr.getD (i - 25 * SEC_SIZE) 0
    else 0

/-- Harddisk fixture whose MBR partition fields are all zero. -/
def srcHdZero : Source where
  size := 25 * SEC_SIZE + V_SEC_SIZE
  byteAt := fun i =>
    if 17 * SEC_SIZE ≤ i ∧ i < 18 * SEC_SIZE then pvdSector.getD (i - 17 * SEC_SIZE) 0
    else if 20 * SEC_SIZE ≤ i ∧ i < 21 * SEC_SIZE then (catalogSector 0x88 4).getD (i - 20 * SEC_SIZE) 0
    else 0

/-- Computation rule: an ok value feeds the continuation. -/
theorem DResult.bind_ok {α β : Type} (a : α) (k : α → DResult β) :
    (DResult.ok a).bind k = k a := rfl

/-- Computation rule: an error short-circuits. -/
theorem DResult.bind_err {α β : Type} (e : DecodeError) (k : α → DResult β) :
    (DResult.err e).bind k = .err e := rfl

/-- Mapping a function that is constant from lo on over a contiguous
index range yields a replicate. -/
theorem map_range'_const (f : Nat → Nat) (c : Nat) :
    ∀ (n lo : Nat), (∀ i, lo ≤ i → f i = c) →
      (List.range' lo n).map f = List.replicate n c := by
  intro n
  induction n with
  | zero => intro lo _; rfl
  | succ n ih =>
    intro lo h
    rw [List.range'_succ, List.map_cons, List.replicate_succ, h lo le_rfl,
      ih (lo + 1) (fun i hi => h i (by omega))]

/-- A read always returns exactly the available bytes, capped at the
requested count. -/
theorem Source.length_read (f : Source) (pos n : Nat) :
    (f.read pos n).length = min n (f.size - pos) := by
  simp [Source.read]

/-- Every byte of the fixture payload region is 171. -/
theorem synthetic_payload_byte (i : Nat) (h : 25 * SEC_SIZE ≤ i) :
    synthetic.byteAt i = 171 := by
  simp only [synthetic, synthImage, SEC_SIZE] at h ⊢
  rw [if_neg (by omega), if_neg (by omega), if_pos (by omega)]

/-- The fixture read at sector 25 for 10 virtual sectors returns the
5120 payload bytes. -/
theorem synthetic_payload_read :
    Source.read synthetic (25 * SEC_SIZE) (10 * V_SEC_SIZE) = List.replicate 5120 171 := by
  have hmin : min (10 * V_SEC_SIZE) (synthetic.size - 25 * SEC_SIZE) = 5120 := by
    simp [synthetic, synthImage, SEC_SIZE, V_SEC_SIZE]
  rw [Source.read, hmin]
  exact map_range'_const _ _ _ _ synthetic_payload_byte

/-- C1: on the spec's end-to-end fixture (valid PVD at sector 17
pointing to catalog sector 20, valid Validation Entry, Initial/Default
Entry with boot 0x88, media 0, sector_count 10, start_sector 25, and
5120 payload bytes at sector 25) the claim expects the decode to return
exactly the payload; the program instead aborts with struct.error at the
Initial/Default Entry unpack (invalid format string "<BBHBBH_I_B" at
line 123), so no image is ever produced. The first conjunct shows the
payload the claim expects is present in the fixture; the second
evaluates the decoder on the fixture. -/
theorem c1_end_to_end_code_bug :
    Source.read synthetic (25 * SEC_SIZE) (10 * V_SEC_SIZE) = List.replicate 5120 171 ∧
    decodeImage synthetic = .err .unpackError :=
  ⟨synthetic_payload_read, by decide⟩

/-- C2: every source that passes the volume-descriptor stage and the
Validation Entry check aborts with the generic struct.error of the
Initial/Default Entry unpack (format string "<BBHBBH_I_B" is invalid),
before the boot-indicator test and media sizing; consequently no source
at all ever reaches the image-extraction step (second conjunct). -/
theorem c2_unpack_aborts_all_decodes :
    (∀ (f : Source) (p : Nat) (sector : List Nat),
        validateVolumeDescriptor f = .ok p →
        get_sector f p 1 = some sector →
        sector ≠ [] →
        checkValidationEntry sector = .ok () →
        decodeImage f = .err .unpackError) ∧
    (∀ (f : Source) (r : List Nat), decodeImage f ≠ .ok r) := by
  constructor
  · intro f p sector hv hg hne hc
    have hcat : readCatalog f p = .ok sector := by
      unfold readCatalog
      rw [hg]
      exact if_neg hne
    unfold decodeImage parseCatalogAndLocate
    rw [hv, DResult.bind_ok, hcat, DResult.bind_ok, hc, DResult.bind_ok]
    rfl
  · intro f r
    unfold decodeImage
    cases hv : validateVolumeDescriptor f with
    | err e => rw [DResult.bind_err]; exact fun h => DResult.noConfusion h
    | ok p =>
      rw [DResult.bind_ok]
      cases hcat : readCatalog f p with
      | err e => rw [DResult.bind_err]; exact fun h => DResult.noConfusion h
      | ok sector =>
        rw [DResult.bind_ok]
        unfold parseCatalogAndLocate
        cases hc : checkValidationEntry sector with
        | err e => rw [DResult.bind_err]; exact fun h => DResult.noConfusion h
        | ok u =>
          rw [DResult.bind_ok]
          unfold parseInitialEntry
          rw [DResult.bind_err]
          exact fun h => DResult.noConfusion h

/-- Witness for C2: the end-to-end fixture passes both prior stages and
the decode indeed aborts with the unpack error. -/
theorem c2_witness :
    validateVolumeDescriptor synthetic = .ok 20 ∧
    decodeImage synthetic = .err .unpackError :=
  ⟨by decide,
   c2_unpack_aborts_all_decodes.1 synthetic 20
     (Source.read synthetic (20 * SEC_SIZE) (V_SEC_SIZE * 1))
     (by decide) rfl (by decide) (by decide)⟩

/-- C3 counterexample: reading one sector from an empty source returns a
successful empty buffer (shorter than the 512 requested bytes), not the
ReadError (None) the claim requires for every short read. -/
theorem c3_counterexample_short_read_succeeds :
    get_sector emptySource 0 1 = some [] ∧ get_sector emptySource 0 1 ≠ none := by
  decide

/-- C3 amended: get_sector never signals a ReadError for a merely short
or truncated source; it returns a successful buffer holding exactly the
available bytes, capped at the requested 512*sector_count, so a short
request yields a silent short (possibly empty) success. A ReadError
(None) arises only from an I/O exception of the underlying device. -/
theorem c3_amended_short_reads_are_silent (f : Source) (sec_num sec_count : Nat) :
    ∃ buf, get_sector f sec_num sec_count = some buf ∧
      buf.length = min (V_SEC_SIZE * sec_count) (f.size - sec_num * SEC_SIZE) ∧
      buf.length ≤ V_SEC_SIZE * sec_count := by
  refine ⟨f.read (sec_num * SEC_SIZE) (V_SEC_SIZE * sec_count), rfl,
    Source.length_read f _ _, ?_⟩
  rw [Source.length_read]
  exact Nat.min_le_left _ _

/-- The volume-descriptor stage is the stage body applied to the sector
17 buffer. -/
theorem validate_eq_vdBody (f : Source) :
    validateVolumeDescriptor f = vdBody (sector17 f) := rfl

/-- The identifier bytes of "CD001" are ASCII. -/
theorem cd001_ascii : (cd001.all fun b => b < 128) = true := by decide

/-- The boot-system tag constant is ASCII. -/
theorem elToritoTag_ascii : (elToritoTag.all fun b => b < 128) = true := by decide

/-- Stage body, accepting case: at least 75 bytes, identifier "CD001",
stripped tag equal to the constant; the result is the little-endian
pointer at bytes 71-74. -/
theorem vdBody_ok (sector : List Nat) (h75 : 75 ≤ sector.length)
    (hid : ((sector.take 75).drop 1).take 5 = cd001)
    (htag : stripNul (((sector.take 75).drop 7).take 32) = elToritoTag) :
    vdBody sector = .ok (le32 (((sector.take 75).drop 71).take 4)) := by
  have hne : sector ≠ [] := by
    intro h
    rw [h] at h75
    simp at h75
  have hlen : (sector.take 75).length = 75 := by
    rw [List.length_take]
    exact min_eq_left h75
  simp only [vdBody]
  rw [if_neg hne, if_pos hlen, hid, htag, if_pos cd001_ascii, if_pos elToritoTag_ascii,
    if_neg (by simp)]

/-- Stage body, rejecting case: at least 75 bytes, identifier and
stripped tag both ASCII-decodable, and the line 82 condition violated. -/
theorem vdBody_notBootable (sector : List Nat) (h75 : 75 ≤ sector.length)
    (hidA : ((((sector.take 75).drop 1).take 5).all fun b => b < 128) = true)
    (htagA : ((stripNul (((sector.take 75).drop 7).take 32)).all fun b => b < 128) = true)
    (hbad : ((sector.take 75).drop 1).take 5 ≠ cd001 ∨
      stripNul (((sector.take 75).drop 7).take 32) ≠ elToritoTag) :
    vdBody sector = .err .notBootable := by
  have hne : sector ≠ [] := by
    intro h
    rw [h] at h75
    simp at h75
  have hlen : (sector.take 75).length = 75 := by
    rw [List.length_take]
    exact min_eq_left h75
  simp only [vdBody]
  rw [if_neg hne, if_pos hlen, if_pos hidA, if_pos htagA, if_pos hbad]

/-- Sector 17 holds at least 75 bytes whenever the file extends 75 bytes
past the sector 17 offset. -/
theorem sector17_long (f : Source) (hsize : 17 * SEC_SIZE + 75 ≤ f.size) :
    75 ≤ (sector17 f).length := by
  rw [sector17, Source.length_read]
  simp only [SEC_SIZE, V_SEC_SIZE] at hsize ⊢
  omega

/-- C4 amended: (a) for every source long enough at sector 17 whose
identifier field equals "CD001" and whose NUL-stripped boot-system tag
equals "EL TORITO SPECIFICATION", validation succeeds and returns the
32-bit little-endian integer at byte offset 71 of sector 17; (b) a
source whose identifier field is ASCII but differs from "CD001" fails
with the not-bootable error, provided the stripped tag is also ASCII;
when either field holds a non-ASCII byte the failure is instead the
ascii-decode error of lines 79-80 (see the counterexample). -/
theorem c4_descriptor_validation :
    (∀ f : Source, 17 * SEC_SIZE + 75 ≤ f.size →
      vdIdent f = cd001 →
      stripNul (vdTagRaw f) = elToritoTag →
      validateVolumeDescriptor f = .ok (vdBootP f)) ∧
    (∀ f : Source, 17 * SEC_SIZE + 75 ≤ f.size →
      ((vdIdent f).all fun b => b < 128) = true →
      vdIdent f ≠ cd001 →
      ((stripNul (vdTagRaw f)).all fun b => b < 128) = true →
      validateVolumeDescriptor f = .err .notBootable) := by
  constructor
  · intro f hsize hid htag
    rw [validate_eq_vdBody]
    exact vdBody_ok (sector17 f) (sector17_long f hsize) hid htag
  · intro f hsize hidA hid htagA
    rw [validate_eq_vdBody]
    exact vdBody_notBootable (sector17 f) (sector17_long f hsize) hidA htagA (Or.inl hid)

/-- Witness for C4: the end-to-end fixture is accepted with pointer 20,
and an ASCII identifier "CD002" yields the not-bootable error. -/
theorem c4_witness :
    validateVolumeDescriptor synthetic = .ok (vdBootP synthetic) ∧
    validateVolumeDescriptor srcCD002 = .err .notBootable :=
  ⟨c4_descriptor_validation.1 synthetic (by decide) (by decide) (by decide),
   c4_descriptor_validation.2 srcCD002 (by decide) (by decide) (by decide) (by decide)⟩

/-- C4 counterexample: an identifier different from "CD001" whose first
byte is 255 does not produce the not-bootable error; the ascii decode of
line 79 fails first, reaching the generic handler instead. -/
theorem c4_counterexample_non_ascii_ident :
    vdIdent srcNonAsciiIdent ≠ cd001 ∧
    validateVolumeDescriptor srcNonAsciiIdent = .err .unicodeError ∧
    validateVolumeDescriptor srcNonAsciiIdent ≠ .err .notBootable := by
  decide

/-- Dropping leading zeros skips a zero replicate prefix. -/
theorem dropWhile_zero_replicate (n : Nat) (l : List Nat) :
    List.dropWhile (fun b => b = 0) (List.replicate n 0 ++ l) =
      List.dropWhile (fun b => b = 0) l := by
  induction n with
  | zero => rfl
  | succ n ih => simp [List.replicate_succ, List.dropWhile_cons, ih]

/-- A list without zero bytes is untouched by dropWhile on zero. -/
theorem dropWhile_zero_of_ne (l : List Nat) (h : ∀ b ∈ l, b ≠ 0) :
    List.dropWhile (fun b => b = 0) l = l := by
  cases l with
  | nil => rfl
  | cons a t =>
    have ha : a ≠ 0 := h a (List.mem_cons_self a t)
    rw [List.dropWhile_cons, if_neg (by simp [ha])]

/-- Round trip: stripping the strip set from a padded NUL-free string
returns the string. -/
theorem stripNul_padNul (s : List Nat) (n : Nat) (h : ∀ b ∈ s, b ≠ 0) :
    stripNul (padNul s n) = s := by
  unfold stripNul padNul
  cases s with
  | nil =>
    have hz : List.dropWhile (fun b => b = 0) (List.replicate n 0) = [] := by
      rw [← List.append_nil (List.replicate n 0), dropWhile_zero_replicate n []]
      rfl
    rw [List.nil_append, hz]
    rfl
  | cons a t =>
    have ha : a ≠ 0 := h a (List.mem_cons_self a t)
    rw [List.cons_append, List.dropWhile_cons, if_neg (by simp [ha]), ← List.cons_append,
      List.reverse_append, List.reverse_replicate, dropWhile_zero_replicate,
      dropWhile_zero_of_ne _ (fun b hb => h b (List.mem_reverse.mp hb)),
      List.reverse_reverse]

/-- The identifier extractor names the take/drop slice of sector 17. -/
theorem vdIdent_def (f : Source) :
    (((sector17 f).take 75).drop 1).take 5 = vdIdent f := rfl

/-- The raw-tag extractor names the take/drop slice of sector 17. -/
theorem vdTagRaw_def (f : Source) :
    (((sector17 f).take 75).drop 7).take 32 = vdTagRaw f := rfl

/-- C5 amended: the source strips leading as well as trailing NUL bytes
(Python bytes.strip), not only trailing ones. (a) The round trip
strip(pad(s)) = s still holds for every NUL-free byte string; (b) with
identifier "CD001", every tag whose both-ends-stripped ASCII value
differs from "EL TORITO SPECIFICATION" is rejected as not bootable (a
non-ASCII stripped tag instead raises the ascii-decode error); (c) the
constant tag followed only by NUL padding is accepted. The
counterexample shows the claim's trailing-only reading is wrong: a tag
with a leading NUL is also accepted. -/
theorem c5_tag_stripping :
    (∀ (s : List Nat) (n : Nat), (∀ b ∈ s, b ≠ 0) → stripNul (padNul s n) = s) ∧
    (∀ f : Source, 17 * SEC_SIZE + 75 ≤ f.size →
      vdIdent f = cd001 →
      ((stripNul (vdTagRaw f)).all fun b => b < 128) = true →
      stripNul (vdTagRaw f) ≠ elToritoTag →
      validateVolumeDescriptor f = .err .notBootable) ∧
    (∀ f : Source, 17 * SEC_SIZE + 75 ≤ f.size →
      vdIdent f = cd001 →
      vdTagRaw f = padNul elToritoTag 9 →
      validateVolumeDescriptor f = .ok (vdBootP f)) := by
  refine ⟨stripNul_padNul, ?_, ?_⟩
  · intro f hsize hid htagA hbad
    rw [validate_eq_vdBody]
    refine vdBody_notBootable (sector17 f) (sector17_long f hsize) ?_ htagA (Or.inr hbad)
    rw [vdIdent_def, hid]
    exact cd001_ascii
  · intro f hsize hid htag
    rw [validate_eq_vdBody]
    refine vdBody_ok (sector17 f) (sector17_long f hsize) hid ?_
    rw [vdTagRaw_def, htag]
    exact stripNul_padNul elToritoTag 9 (by decide)

/-- C5 counterexample: a tag whose value after stripping only trailing
NUL padding differs from the constant (it keeps its leading NUL) is
nevertheless accepted, because the code strips both ends; so comparison
after stripping exactly the trailing padding is not what the code does,
and the claimed rejection fails on this input. -/
theorem c5_counterexample_leading_nul_accepted :
    specStripTrailingNul (vdTagRaw srcLeadNulTag) ≠ elToritoTag ∧
    validateVolumeDescriptor srcLeadNulTag = .ok 20 := by
  decide

/-- Witness for C5: the round trip on a concrete NUL-free string, a
concrete wrong tag rejected as not bootable, and the NUL-padded constant
tag accepted with pointer 20. -/
theorem c5_witness :
    stripNul (padNul (strBytes "ABC") 4) = strBytes "ABC" ∧
    validateVolumeDescriptor srcWrongTag = .err .notBootable ∧
    validateVolumeDescriptor synthetic = .ok (vdBootP synthetic) :=
  ⟨c5_tag_stripping.1 (strBytes "ABC") 4 (by decide),
   c5_tag_stripping.2.1 srcWrongTag (by decide) (by decide) (by decide) (by decide),
   c5_tag_stripping.2.2 synthetic (by decide) (by decide) (by decide)⟩

/-- Indexing a long-enough prefix agrees with indexing the sector. -/
theorem getD_take_32 (sector : List Nat) (i : Nat) (hi : i < 32) :
    (sector.take 32).getD i 0 = sector.getD i 0 := by
  rw [List.getD_eq_getElem?_getD, List.getD_eq_getElem?_getD, List.getElem?_take, if_pos hi]

/-- C6: for every boot-catalog sector of at least 32 bytes, the
Validation Entry check fails with the invalid-validation-entry error
exactly when header (byte 0) is not 1, or sig1 (byte 30) is not 0x55, or
sig2 (byte 31) is not 0xAA, regardless of all the other bytes of the
entry; in particular the platform byte (1) and the manufacturer bytes
(4-27) are universally quantified here and never cause a failure. -/
theorem c6_validation_entry_check :
    (∀ sector : List Nat, 32 ≤ sector.length →
      (sector.getD 0 0 ≠ 1 ∨ sector.getD 30 0 ≠ 0x55 ∨ sector.getD 31 0 ≠ 0xAA) →
      checkValidationEntry sector = .err .invalidValidationEntry) ∧
    (∀ sector : List Nat, 32 ≤ sector.length →
      sector.getD 0 0 = 1 → sector.getD 30 0 = 0x55 → sector.getD 31 0 = 0xAA →
      checkValidationEntry sector = .ok ()) := by
  constructor
  · intro sector hlen hbad
    have h32 : (sector.take 32).length = 32 := by
      rw [List.length_take]
      exact min_eq_left hlen
    simp only [checkValidationEntry]
    rw [if_pos h32, if_neg]
    rw [getD_take_32 sector 0 (by omega), getD_take_32 sector 30 (by omega),
      getD_take_32 sector 31 (by omega)]
    tauto
  · intro sector hlen h0 h30 h31
    have h32 : (sector.take 32).length = 32 := by
      rw [List.length_take]
      exact min_eq_left hlen
    simp only [checkValidationEntry]
    rw [if_pos h32, if_pos]
    rw [getD_take_32 sector 0 (by omega), getD_take_32 sector 30 (by omega),
      getD_take_32 sector 31 (by omega)]
    exact ⟨h0, h30, h31⟩

/-- Witness for C6: a 32-byte all-zero entry (header 0) is rejected as
invalid, and a well-signed entry with arbitrary nonzero platform and
manufacturer bytes is accepted. -/
theorem c6_witness :
    checkValidationEntry (List.replicate 32 0) = .err .invalidValidationEntry ∧
    checkValidationEntry ([1, 7] ++ List.replicate 28 9 ++ [0x55, 0xAA]) = .ok () :=
  ⟨c6_validation_entry_check.1 (List.replicate 32 0) (by decide) (by decide),
   c6_validation_entry_check.2 ([1, 7] ++ List.replicate 28 9 ++ [0x55, 0xAA])
     (by decide) (by decide) (by decide) (by decide)⟩

/-- C7: the claim expects an Initial/Default Entry whose boot indicator
is not 0x88 to fail with the specific not-bootable error of line 126;
the program never reaches that test, because the unpack at line 123
raises struct.error first. On a fixture whose catalog passes the
Validation Entry check and carries boot indicator 0, the decode ends in
the generic unpack error, not the not-bootable error. -/
theorem c7_boot_indicator_unreachable :
    checkValidationEntry (Source.read srcBadBoot (20 * SEC_SIZE) (V_SEC_SIZE * 1)) = .ok () ∧
    decodeImage srcBadBoot = .err .unpackError ∧
    decodeImage srcBadBoot ≠ .err .notBootable := by
  decide

/-- C8: the sizing chain of lines 134-145 and 154 does resolve media
types 1, 2, 3 to the fixed geometry counts 2400, 2880, 5760 (independent
of the declared sector_count: the fallback keeps a nonzero count), and
media type 0 leaves count 0 so the declared sector_count is used; but no
extraction ever uses these values, because the decode of any such image
dies in the unpack error of line 123 first (final conjunct, on a media
type 1 fixture). -/
theorem c8_floppy_geometry_dead_code :
    mediaCount synthetic 1 25 = .ok 2400 ∧
    mediaCount synthetic 2 25 = .ok 2880 ∧
    mediaCount synthetic 3 25 = .ok 5760 ∧
    mediaCount synthetic 0 25 = .ok 0 ∧
    resolvedCnt 10 2400 = 2400 ∧
    resolvedCnt 9999 2400 = 2400 ∧
    resolvedCnt 10 0 = 10 ∧
    decodeImage srcFloppy = .err .unpackError := by
  decide

set_option maxRecDepth 8000 in
/-- C9: the dead sizing code of lines 146-152 would resolve the count of
a harddisk entry to first_sector + partition_size = 2048 + 4096 = 6144
from the partition slot at byte offset 446 of the sector at start_sector
(first conjunct); but the decode of the harddisk fixture aborts in the
unpack error of line 123 and never computes it (second conjunct). -/
theorem c9_harddisk_mbr_dead_code :
    mediaCount srcHd 4 25 = .ok 6144 ∧
    decodeImage srcHd = .err .unpackError := by
  decide

set_option maxRecDepth 8000 in
/-- C10: the dead fallback of line 154 does use the declared
sector_count whenever the media-derived count is 0 (zero-sum partition
fields, an out-of-range MBR read returning an empty buffer, or the
NoEmulation path), and keeps a nonzero media-derived count otherwise;
but no extraction ever applies it, since the decode aborts in the
unpack error of line 123 (final conjunct, zero-partition harddisk
fixture). -/
theorem c10_fallback_dead_code :
    mediaCount srcHdZero 4 25 = .ok 0 ∧
    mediaCount emptySource 4 25 = .ok 0 ∧
    mediaCount srcHdZero 0 25 = .ok 0 ∧
    resolvedCnt 7 0 = 7 ∧
    resolvedCnt 7 6144 = 6144 ∧
    decodeImage srcHdZero = .err .unpackError := by
  decide
